import Mathlib

/-!
Verification of the campaign delivery worker (`internal/worker/worker.go`).

The worker's store (campaign row, recipient rows, contact rows, message rows)
is modelled as an explicit `Store` value.  Everything the worker observes from
the outside world — whether the campaign/account/recipient loads succeed, the
result of each external send, concurrent status writes by the management API,
failures of the per-iteration status re-read, contact-creation failures,
message-persistence failures, and clock reads — is supplied by an `Env` of
oracles indexed by iteration number.  `processCampaign` and `runLoop` are a
direct transcription of the Go control flow; a nil-pointer dereference of the
campaign template inside `sendTemplateMessage` is modelled as the distinguished
outcome `RunResult.crashed`.
-/

/-- A message template (`models.Template`): name, language, body. -/
structure Template where
  name : String
  language : String
  bodyContent : String
deriving DecidableEq, Repr

/-- A campaign recipient row (`models.BulkMessageRecipient`). -/
structure Recipient where
  phoneNumber : String
  recipientName : String
  templateParams : Option (List (String × String))
  status : String
  errorMessage : String
  waMessageID : String
  sentAt : Option Nat
deriving DecidableEq, Repr

/-- A contact row (`models.Contact`). -/
structure Contact where
  id : Nat
  organizationID : Nat
  phoneNumber : String
  profileName : String
deriving DecidableEq, Repr

/-- A message row (`models.Message`) as built by `processCampaign`. -/
structure Message where
  organizationID : Nat
  whatsAppAccount : String
  contactID : Nat
  waMessageID : String
  direction : String
  messageType : String
  templateName : String
  content : String
  status : String
  errorMessage : String
  metaCampaignID : String
  metaRecipientName : String
  templateParams : Option (List (String × String))
deriving DecidableEq, Repr

/-- The persistent store as the worker sees it: the campaign row's mutable
fields, the recipient table (all rows of this campaign), the contact table
and the message table. -/
structure Store where
  campaignStatus : String
  campaignSent : Nat
  campaignFailed : Nat
  campaignCompletedAt : Option Nat
  campaignTemplate : Option Template
  recipients : List Recipient
  contacts : List Contact
  messages : List Message
  nextContactID : Nat
deriving DecidableEq, Repr

/-- Identity of the run: campaign id, owning organization, account name. -/
structure RunCtx where
  campaignID : String
  organizationID : Nat
  accountName : String
deriving DecidableEq, Repr

/-- Oracles for everything external to the worker.  Per-iteration oracles are
indexed by the iteration counter. -/
structure Env where
  campaignFound : Bool
  accountFound : Bool
  recipientsLoadOk : Bool
  ctxCancelled : Nat → Bool
  extStatusSet : Nat → Option String
  readFails : Nat → Bool
  contactCreateFails : Nat → Bool
  sendResult : Nat → Except String String
  msgCreateFails : Nat → Bool
  timeAt : Nat → Nat
  finishTime : Nat

/-- Outcome of a run: `ok` (nil error), `err` (non-nil error), or `crashed`
(a Go panic, reached by dereferencing a nil template pointer). -/
inductive RunResult where
  | ok : RunResult
  | err (msg : String) : RunResult
  | crashed : RunResult
deriving DecidableEq, Repr

/-- Phone normalization: strip a single leading '+' byte, as in
`getOrCreateContact` lines 299-302. -/
def normalizePhone (p : String) : String :=
  match p.data with
  | '+' :: rest => String.mk rest
  | _ => p

/-- Scan `s` left to right; whenever the (non-empty) pattern is a prefix of
the remaining input, emit the replacement and skip past the match, exactly the
non-overlapping leftmost semantics of Go's `strings.ReplaceAll`.  `fuel`
bounds the recursion; it is started at the input length, which suffices since
every step consumes at least one character. -/
def replaceFuel (pat rep : List Char) : Nat → List Char → List Char
  | 0, s => s
  | _ + 1, [] => []
  | fuel + 1, c :: cs =>
      if pat.isPrefixOf (c :: cs) then
        rep ++ replaceFuel pat rep fuel (List.drop (pat.length - 1) cs)
      else
        c :: replaceFuel pat rep fuel cs

/-- `strings.ReplaceAll` for a non-empty pattern (the worker only ever passes
placeholder patterns of the shape `\x7b\x7bi\x7d\x7d`, which are non-empty). -/
def replaceAll (s pat rep : String) : String :=
  String.mk (replaceFuel pat.data rep.data s.data.length s.data)

/-- First contact row matching `(organization_id, phone_number)` — the
`First(&contact)` query of `getOrCreateContact`. -/
def findContact (contacts : List Contact) (orgID : Nat) (phone : String) : Option Contact :=
  contacts.find? (fun c => c.organizationID == orgID && c.phoneNumber == phone)

/-- `getOrCreateContact` (worker.go lines 297-329): normalize the phone,
look up without then with a leading '+', create on double miss.  Returns the
resolved contact, the updated contact table and the next fresh id; `none`
models a failed create.  `createFails` is the DB-error oracle for the create. -/
def getOrCreateContact (contacts : List Contact) (nextID : Nat) (orgID : Nat)
    (phoneNumber name : String) (createFails : Bool) :
    Option (Contact × List Contact × Nat) :=
  let normalized := normalizePhone phoneNumber
  match findContact contacts orgID normalized with
  | some c => some (c, contacts, nextID)
  | none =>
    match findContact contacts orgID ("+" ++ normalized) with
    | some c => some (c, contacts, nextID)
    | none =>
      if createFails then none
      else
        let c : Contact :=
          { id := nextID, organizationID := orgID,
            phoneNumber := normalized, profileName := name }
        some (c, contacts ++ [c], nextID + 1)

/-- Association-list lookup mirroring a Go map index `params[key]`. -/
def lookupParam (ps : List (String × String)) (k : String) : Option String :=
  (ps.find? (fun p => p.fst == k)).map Prod.snd

/-- One step of the placeholder-substitution loop: if parameter key
`toString (j+1)` is present, replace every occurrence of the placeholder
`\x7b\x7b(j+1)\x7d\x7d` in the running content. -/
def renderStep (ps : List (String × String)) (content : String) (j : Nat) : String :=
  match lookupParam ps (toString (j + 1)) with
  | some v =>
      replaceAll content ("\x7b\x7b" ++ toString (j + 1) ++ "\x7d\x7d") v
  | none => content

/-- Template rendering (worker.go lines 166-176): for i = 1..10, if parameter
key `toString i` is present, replace every occurrence of the placeholder
`\x7b\x7bi\x7d\x7d` in the body with the parameter value.  A nil parameter map
leaves the body untouched. -/
def renderContent (body : String) (params : Option (List (String × String))) : String :=
  match params with
  | none => body
  | some ps => (List.range 10).foldl (renderStep ps) body

/-- External status write (pause/cancel issued concurrently by the management
API) applied to the store just before iteration `k`'s status re-read. -/
def applyExt (env : Env) (k : Nat) (st : Store) : Store :=
  match env.extStatusSet k with
  | some s => { st with campaignStatus := s }
  | none => st

/-- The per-recipient loop of `processCampaign` (worker.go lines 117-250),
over the snapshot of pending recipients (store index paired with the loaded
row), with the iteration counter and the local `sentCount`/`failedCount`. -/
def runLoop (env : Env) (rc : RunCtx) (tmpl : Option Template) :
    List (Nat × Recipient) → Nat → Nat → Nat → Store → RunResult × Store
  | [], _, sent, failed, st =>
      (RunResult.ok,
        { st with campaignStatus := "completed",
                  campaignCompletedAt := some env.finishTime,
                  campaignSent := sent, campaignFailed := failed })
  | (idx, r) :: rest, k, sent, failed, st =>
      if env.ctxCancelled k then
        (RunResult.err "context canceled", st)
      else
        let st1 := applyExt env k st
        let observed := if env.readFails k then "" else st1.campaignStatus
        if observed == "paused" || observed == "cancelled" then
          (RunResult.ok, st1)
        else
          match getOrCreateContact st1.contacts st1.nextContactID rc.organizationID
              r.phoneNumber r.recipientName (env.contactCreateFails k) with
          | none =>
              let failedR : Recipient :=
                { r with status := "failed",
                         errorMessage := "Failed to create contact" }
              let st2 := { st1 with recipients := st1.recipients.set idx failedR }
              runLoop env rc tmpl rest (k + 1) sent (failed + 1) st2
          | some (c, cts, nid) =>
              let st2 := { st1 with contacts := cts, nextContactID := nid }
              match tmpl with
              | none => (RunResult.crashed, st2)
              | some t =>
                  let sendRes := env.sendResult k
                  let wam := match sendRes with
                    | Except.ok mid => mid
                    | Except.error _ => ""
                  let msgStatus := match sendRes with
                    | Except.ok _ => "sent"
                    | Except.error _ => "failed"
                  let msgErr := match sendRes with
                    | Except.ok _ => ""
                    | Except.error e => e
                  let message : Message :=
                    { organizationID := rc.organizationID,
                      whatsAppAccount := rc.accountName,
                      contactID := c.id,
                      waMessageID := wam,
                      direction := "outgoing",
                      messageType := "template",
                      templateName := t.name,
                      content := renderContent t.bodyContent r.templateParams,
                      status := msgStatus,
                      errorMessage := msgErr,
                      metaCampaignID := rc.campaignID,
                      metaRecipientName := r.recipientName,
                      templateParams := r.templateParams }
                  let st3 := if env.msgCreateFails k then st2
                    else { st2 with messages := st2.messages ++ [message] }
                  let newR := if msgStatus == "failed" then
                      { r with status := "failed", waMessageID := wam,
                               errorMessage := msgErr }
                    else
                      { r with status := "sent", waMessageID := wam,
                               sentAt := some (env.timeAt k) }
                  let sent2 := match sendRes with
                    | Except.ok _ => sent + 1
                    | Except.error _ => sent
                  let failed2 := match sendRes with
                    | Except.ok _ => failed
                    | Except.error _ => failed + 1
                  let st4 := { st3 with
                    recipients := st3.recipients.set idx newR,
                    campaignSent := sent2, campaignFailed := failed2 }
                  runLoop env rc tmpl rest (k + 1) sent2 failed2 st4

/-- The pending-recipient snapshot loaded at run start (worker.go line 106):
store indices paired with rows whose status is `pending`. -/
def pendingOf (st : Store) : List (Nat × Recipient) :=
  st.recipients.enum.filter (fun p => p.snd.status == "pending")

/-- `processCampaign` (worker.go lines 77-251): load the campaign, gate on a
startable status, load the account (failure sets status `failed`), set status
`processing`, load pending recipients (failure sets status `failed`), then run
the per-recipient loop starting from the campaign row's current counters. -/
def processCampaign (env : Env) (rc : RunCtx) (st : Store) : RunResult × Store :=
  if !env.campaignFound then
    (RunResult.err "failed to load campaign", st)
  else if st.campaignStatus != "queued" && st.campaignStatus != "processing" then
    (RunResult.ok, st)
  else if !env.accountFound then
    (RunResult.err "failed to load WhatsApp account",
      { st with campaignStatus := "failed" })
  else
    let st1 := { st with campaignStatus := "processing" }
    if !env.recipientsLoadOk then
      (RunResult.err "failed to load recipients",
        { st1 with campaignStatus := "failed" })
    else
      runLoop env rc st1.campaignTemplate (pendingOf st1) 0
        st1.campaignSent st1.campaignFailed st1

/-! Concrete base instances used by witnesses and counterexamples. -/

/-- Baseline oracle environment: every load succeeds, no cancellation, no
concurrent status write, status re-reads succeed, contact creation and message
persistence succeed, every send succeeds with id `wamid.1`. -/
def envBase : Env where
  campaignFound := true
  accountFound := true
  recipientsLoadOk := true
  ctxCancelled := fun _ => false
  extStatusSet := fun _ => none
  readFails := fun _ => false
  contactCreateFails := fun _ => false
  sendResult := fun _ => Except.ok "wamid.1"
  msgCreateFails := fun _ => false
  timeAt := fun _ => 1000
  finishTime := 2000

/-- Baseline run identity. -/
def rcBase : RunCtx where
  campaignID := "camp-1"
  organizationID := 3
  accountName := "main"

/-- Baseline template. -/
def tplBase : Template where
  name := "greet"
  language := "en"
  bodyContent := "hello"

/-- Baseline pending recipient. -/
def recBase : Recipient where
  phoneNumber := "+15551"
  recipientName := "Ana"
  templateParams := none
  status := "pending"
  errorMessage := ""
  waMessageID := ""
  sentAt := none

/-- Baseline store: queued campaign with zero counters and one pending
recipient. -/
def stBase : Store where
  campaignStatus := "queued"
  campaignSent := 0
  campaignFailed := 0
  campaignCompletedAt := none
  campaignTemplate := some tplBase
  recipients := [recBase]
  contacts := []
  messages := []
  nextContactID := 0

/-! Helper lemmas. -/

/-- If `find?` misses on the first list, it searches the second. -/
theorem find?_append_of_none {α : Type} (f : α → Bool) :
    ∀ l₁ l₂ : List α, l₁.find? f = none → (l₁ ++ l₂).find? f = l₂.find? f := by
  intro l₁
  induction l₁ with
  | nil => intro l₂ _; rfl
  | cons a l ih =>
      intro l₂ h
      by_cases hfa : f a = true
      · rw [List.find?_cons_of_pos _ hfa] at h; exact absurd h (by simp)
      · rw [List.cons_append, List.find?_cons_of_neg _ hfa]
        rw [List.find?_cons_of_neg _ hfa] at h
        exact ih l₂ h

/-- Filtering an enumerated list on the payload has the same length as
filtering the list itself. -/
theorem length_filter_enumFrom {α : Type} (f : α → Bool) :
    ∀ (l : List α) (n : Nat),
      ((List.enumFrom n l).filter (fun p => f p.snd)).length = (l.filter f).length := by
  intro l
  induction l with
  | nil => intro n; rfl
  | cons a l ih =>
      intro n
      by_cases hfa : f a = true
      · simp [List.enumFrom, List.filter, hfa, ih]
      · simp [List.enumFrom, List.filter, hfa, ih]

/-- The pending snapshot has one entry per pending recipient row. -/
theorem pendingOf_length (st : Store) :
    (pendingOf st).length = (st.recipients.filter (fun r => r.status == "pending")).length := by
  unfold pendingOf
  rw [List.enum]
  exact length_filter_enumFrom (fun r => r.status == "pending") st.recipients 0

/-- A fold of `renderStep` over indices none of whose keys are present leaves
the content unchanged. -/
theorem foldl_renderStep_id (ps : List (String × String)) :
    ∀ (l : List Nat) (b : String),
      (∀ j ∈ l, lookupParam ps (toString (j + 1)) = none) →
      l.foldl (renderStep ps) b = b := by
  intro l
  induction l with
  | nil => intro b _; rfl
  | cons j l ih =>
      intro b h
      have hj := h j (by simp)
      have hrest : ∀ j' ∈ l, lookupParam ps (toString (j' + 1)) = none := by
        intro j' hj'; exact h j' (by simp [hj'])
      simp only [List.foldl_cons]
      rw [show renderStep ps b j = b by simp [renderStep, hj]]
      exact ih b hrest

/-- `applyExt` only ever touches the campaign status field. -/
theorem applyExt_fields (env : Env) (k : Nat) (st : Store) :
    (applyExt env k st).recipients = st.recipients
    ∧ (applyExt env k st).messages = st.messages
    ∧ (applyExt env k st).contacts = st.contacts
    ∧ (applyExt env k st).nextContactID = st.nextContactID
    ∧ (applyExt env k st).campaignSent = st.campaignSent
    ∧ (applyExt env k st).campaignFailed = st.campaignFailed
    ∧ (applyExt env k st).campaignCompletedAt = st.campaignCompletedAt
    ∧ (applyExt env k st).campaignTemplate = st.campaignTemplate := by
  cases h : env.extStatusSet k <;> simp [applyExt, h]

/-- Characterization: hit on the first lookup. -/
theorem getOrCreateContact_found1 (cts : List Contact) (nid org : Nat) (p nm : String)
    (cf : Bool) (c : Contact) (h : findContact cts org (normalizePhone p) = some c) :
    getOrCreateContact cts nid org p nm cf = some (c, cts, nid) := by
  simp [getOrCreateContact, h]

/-- Inversion of a successful `getOrCreateContact`: it returned a hit on the
bare number, a hit on the '+'-prefixed number, or a freshly created contact
carrying the normalized number. -/
theorem getOrCreateContact_inv (cts : List Contact) (nid org : Nat) (p nm : String)
    (c : Contact) (cts' : List Contact) (nid' : Nat)
    (h : getOrCreateContact cts nid org p nm false = some (c, cts', nid')) :
    (findContact cts org (normalizePhone p) = some c ∧ cts' = cts ∧ nid' = nid)
    ∨ (findContact cts org (normalizePhone p) = none
       ∧ findContact cts org ("+" ++ normalizePhone p) = some c ∧ cts' = cts ∧ nid' = nid)
    ∨ (findContact cts org (normalizePhone p) = none
       ∧ findContact cts org ("+" ++ normalizePhone p) = none
       ∧ c = { id := nid, organizationID := org,
               phoneNumber := normalizePhone p, profileName := nm }
       ∧ cts' = cts ++ [c] ∧ nid' = nid + 1) := by
  simp only [getOrCreateContact] at h
  cases h1 : findContact cts org (normalizePhone p) with
  | some c0 =>
      rw [h1] at h
      simp only [Option.some.injEq, Prod.mk.injEq] at h
      exact Or.inl ⟨by rw [h.1], h.2.1.symm, h.2.2.symm⟩
  | none =>
      rw [h1] at h
      cases h2 : findContact cts org ("+" ++ normalizePhone p) with
      | some c0 =>
          rw [h2] at h
          simp only [Option.some.injEq, Prod.mk.injEq] at h
          exact Or.inr (Or.inl ⟨rfl, by rw [h.1], h.2.1.symm, h.2.2.symm⟩)
      | none =>
          rw [h2] at h
          simp only [Bool.false_eq_true, if_false, Option.some.injEq, Prod.mk.injEq] at h
          refine Or.inr (Or.inr ⟨rfl, rfl, h.1.symm, ?_, h.2.2.symm⟩)
          rw [← h.2.1, ← h.1]

/-- C4: template rendering substitutes each placeholder whose index key
(1..10) is present in the parameters, leaves placeholders with no matching
parameter literal, ignores parameter indices beyond 10 (the placeholder
\x7b\x7b11\x7d\x7d stays literal even when parameter "11" exists), and renders
the spec's example body to "Hi Ana, your order #42 shipped". -/
theorem C4_template_substitution :
    renderContent "Hi \x7b\x7b1\x7d\x7d, your order \x7b\x7b2\x7d\x7d shipped"
        (some [("1", "Ana"), ("2", "#42")]) = "Hi Ana, your order #42 shipped"
    ∧ renderContent "A \x7b\x7b1\x7d\x7d B \x7b\x7b3\x7d\x7d C \x7b\x7b11\x7d\x7d"
        (some [("1", "x"), ("11", "y")]) = "A x B \x7b\x7b3\x7d\x7d C \x7b\x7b11\x7d\x7d"
    ∧ (∀ body : String, renderContent body none = body)
    ∧ (∀ (body : String) (ps : List (String × String)),
        (∀ j, j < 10 → lookupParam ps (toString (j + 1)) = none) →
        renderContent body (some ps) = body) := by
  refine ⟨by decide, by decide, fun body => rfl, ?_⟩
  intro body ps h
  unfold renderContent
  exact foldl_renderStep_id ps (List.range 10) body (fun j hj => h j (List.mem_range.mp hj))

/-- Witness for C4: a parameter map containing only index "11" changes
nothing, instantiating the universally quantified conjunct. -/
theorem C4_template_substitution_witness :
    renderContent "only \x7b\x7b11\x7d\x7d here" (some [("11", "y")])
      = "only \x7b\x7b11\x7d\x7d here" :=
  C4_template_substitution.2.2.2 "only \x7b\x7b11\x7d\x7d here" [("11", "y")] (by decide)

/-- Pre-existing contact of organization 3 stored under the bare number "1",
for the C5 counterexample. -/
def cOldC5 : Contact :=
  { id := 7, organizationID := 3, phoneNumber := "1", profileName := "old" }

/-- Pre-existing contact table for the C5 counterexample. -/
def ctsC5 : List Contact := [cOldC5]

/-- The contact freshly created by resolving "++1": a single '+' is stripped,
so the stored number still carries a leading '+'. -/
def cNewC5 : Contact :=
  { id := 10, organizationID := 3, phoneNumber := "+1", profileName := "bob" }

/-- C5 counterexample: resolving (organization 3, "++1") creates the contact
"+1"; resolving the same phone without its leading '+' — "+1" — then returns
the pre-existing contact "1", a different contact.  So resolution of the same
(organization, phone) with and without the leading '+' is not idempotent as
claimed. -/
theorem C5_double_plus_counterexample :
    normalizePhone "++1" = "+1"
    ∧ getOrCreateContact ctsC5 10 3 "++1" "bob" false
        = some (cNewC5, ctsC5 ++ [cNewC5], 11)
    ∧ getOrCreateContact (ctsC5 ++ [cNewC5]) 11 3 "+1" "bob" false
        = some (cOldC5, ctsC5 ++ [cNewC5], 11)
    ∧ cOldC5 ≠ cNewC5 := by decide

/-- C5 (amended): contact resolution strips a single leading '+', looks up the
bare then the '+'-prefixed number, and creates a contact with the normalized
number only on a double miss; resolving a second phone spelling with the same
normalized form (in particular the same phone again, or — for inputs with at
most one leading '+' — the spelling with/without the leading '+') returns the
very contact the first resolution produced and leaves the contact table
unchanged, so no duplicate is ever created. -/
theorem C5_resolution_idempotent_amended
    (cts : List Contact) (nid org : Nat) (p nm nm' q : String)
    (c : Contact) (cts' : List Contact) (nid' : Nat)
    (h : getOrCreateContact cts nid org p nm false = some (c, cts', nid'))
    (hq : normalizePhone q = normalizePhone p) :
    getOrCreateContact cts' nid' org q nm' false = some (c, cts', nid') := by
  rcases getOrCreateContact_inv cts nid org p nm c cts' nid' h with
    ⟨h1, he1, he2⟩ | ⟨h1, h2, he1, he2⟩ | ⟨h1, h2, hc, he1, he2⟩
  · rw [he1, he2]
    exact getOrCreateContact_found1 cts nid org q nm' false c (by rw [hq]; exact h1)
  · rw [he1, he2]
    have h1' : findContact cts org (normalizePhone q) = none := by rw [hq]; exact h1
    have h2' : findContact cts org ("+" ++ normalizePhone q) = some c := by rw [hq]; exact h2
    simp [getOrCreateContact, h1', h2']
  · rw [he1, he2]
    apply getOrCreateContact_found1
    rw [hq]
    unfold findContact at h1 ⊢
    rw [find?_append_of_none _ cts _ h1]
    subst hc
    simp [List.find?]

/-- Contact created by the first resolution in the C5 witness. -/
def cW5 : Contact :=
  { id := 0, organizationID := 3, phoneNumber := "15551", profileName := "Ana" }

/-- Witness for C5 (amended): resolving "+15551" on an empty table creates the
contact "15551"; resolving "15551" (the same phone without the leading '+')
again returns that very contact and leaves the table unchanged. -/
theorem C5_resolution_idempotent_amended_witness :
    getOrCreateContact ([] : List Contact) 0 3 "+15551" "Ana" false
      = some (cW5, [cW5], 1)
    ∧ normalizePhone "15551" = normalizePhone "+15551"
    ∧ getOrCreateContact [cW5] 1 3 "15551" "Bea" false = some (cW5, [cW5], 1) :=
  ⟨by decide, by decide,
    C5_resolution_idempotent_amended ([] : List Contact) 0 3 "+15551" "Ana" "Bea" "15551"
      cW5 [cW5] 1 (by decide) (by decide)⟩

/-- C6: when the sending-account lookup fails on a startable campaign, the
campaign status is set to failed, recipients and messages are untouched, and
the error is returned to the caller. -/
theorem C6_account_failure (env : Env) (rc : RunCtx) (st : Store)
    (hfound : env.campaignFound = true)
    (hstart : st.campaignStatus = "queued" ∨ st.campaignStatus = "processing")
    (hacct : env.accountFound = false) :
    processCampaign env rc st
      = (RunResult.err "failed to load WhatsApp account",
         { st with campaignStatus := "failed" })
    ∧ ({ st with campaignStatus := "failed" } : Store).recipients = st.recipients
    ∧ ({ st with campaignStatus := "failed" } : Store).messages = st.messages := by
  refine ⟨?_, rfl, rfl⟩
  rcases hstart with h | h <;> simp [processCampaign, hfound, hacct, h]

/-- Witness for C6: the baseline store with a failing account lookup. -/
theorem C6_account_failure_witness :
    processCampaign { envBase with accountFound := false } rcBase stBase
      = (RunResult.err "failed to load WhatsApp account",
         { stBase with campaignStatus := "failed" })
    ∧ ({ stBase with campaignStatus := "failed" } : Store).recipients = stBase.recipients
    ∧ ({ stBase with campaignStatus := "failed" } : Store).messages = stBase.messages :=
  C6_account_failure { envBase with accountFound := false } rcBase stBase
    (by decide) (Or.inl (by decide)) (by decide)

/-- C7: a campaign loaded in a non-startable status makes the run a no-op
returning success with the store untouched; a campaign that fails to load
makes the run return an error with the store untouched. -/
theorem C7_nonstartable_noop (env : Env) (rc : RunCtx) (st : Store) :
    (env.campaignFound = true → st.campaignStatus ≠ "queued" →
      st.campaignStatus ≠ "processing" →
      processCampaign env rc st = (RunResult.ok, st))
    ∧ (env.campaignFound = false →
      processCampaign env rc st = (RunResult.err "failed to load campaign", st)) := by
  constructor
  · intro hf h1 h2
    simp [processCampaign, hf, h1, h2]
  · intro hf
    simp [processCampaign, hf]

/-- Witness for C7: a completed campaign no-ops; a campaign that fails to load
returns an error. -/
theorem C7_nonstartable_noop_witness :
    processCampaign envBase rcBase { stBase with campaignStatus := "completed" }
      = (RunResult.ok, { stBase with campaignStatus := "completed" })
    ∧ processCampaign { envBase with campaignFound := false } rcBase stBase
      = (RunResult.err "failed to load campaign", stBase) :=
  ⟨(C7_nonstartable_noop envBase rcBase { stBase with campaignStatus := "completed" }).1
      (by decide) (by decide) (by decide),
   (C7_nonstartable_noop { envBase with campaignFound := false } rcBase stBase).2 (by decide)⟩

/-- C2: if the status re-read before a recipient iteration observes paused or
cancelled, the loop returns success immediately; the store is passed through
exactly as it stood (prior recipients' mutations preserved, the current and
all later recipients untouched, messages, contacts and counters unchanged)
apart from the concurrent external status write itself, and the campaign
status — being paused or cancelled — is never overwritten to completed. -/
theorem C2_pause_cancel_stops_run (env : Env) (rc : RunCtx) (tmpl : Option Template)
    (idx : Nat) (r : Recipient) (rest : List (Nat × Recipient))
    (k sent failed : Nat) (st : Store)
    (hctx : env.ctxCancelled k = false)
    (hrd : env.readFails k = false)
    (hst : (applyExt env k st).campaignStatus = "paused"
         ∨ (applyExt env k st).campaignStatus = "cancelled") :
    runLoop env rc tmpl ((idx, r) :: rest) k sent failed st
      = (RunResult.ok, applyExt env k st)
    ∧ (applyExt env k st).recipients = st.recipients
    ∧ (applyExt env k st).messages = st.messages
    ∧ (applyExt env k st).contacts = st.contacts
    ∧ (applyExt env k st).campaignSent = st.campaignSent
    ∧ (applyExt env k st).campaignFailed = st.campaignFailed
    ∧ (applyExt env k st).campaignStatus ≠ "completed" := by
  have hf := applyExt_fields env k st
  refine ⟨?_, hf.1, hf.2.1, hf.2.2.1, hf.2.2.2.2.1, hf.2.2.2.2.2.1, ?_⟩
  · rcases hst with h | h <;> simp [runLoop, hctx, hrd, h]
  · rcases hst with h | h <;> rw [h] <;> decide

/-- Witness for C2: a concurrent write sets the campaign to cancelled before
iteration 0; the loop stops at once with the rest of the store untouched. -/
theorem C2_pause_cancel_stops_run_witness :
    runLoop { envBase with extStatusSet := fun _ => some "cancelled" } rcBase
        (some tplBase) [(0, recBase)] 0 0 0 stBase
      = (RunResult.ok,
         applyExt { envBase with extStatusSet := fun _ => some "cancelled" } 0 stBase)
    ∧ (applyExt { envBase with extStatusSet := fun _ => some "cancelled" } 0
        stBase).recipients = stBase.recipients
    ∧ (applyExt { envBase with extStatusSet := fun _ => some "cancelled" } 0
        stBase).messages = stBase.messages
    ∧ (applyExt { envBase with extStatusSet := fun _ => some "cancelled" } 0
        stBase).contacts = stBase.contacts
    ∧ (applyExt { envBase with extStatusSet := fun _ => some "cancelled" } 0
        stBase).campaignSent = stBase.campaignSent
    ∧ (applyExt { envBase with extStatusSet := fun _ => some "cancelled" } 0
        stBase).campaignFailed = stBase.campaignFailed
    ∧ (applyExt { envBase with extStatusSet := fun _ => some "cancelled" } 0
        stBase).campaignStatus ≠ "completed" :=
  C2_pause_cancel_stops_run { envBase with extStatusSet := fun _ => some "cancelled" }
    rcBase (some tplBase) 0 recBase [] 0 0 0 stBase
    (by decide) (by decide) (Or.inr (by decide))

/-- C9: when contact resolution fails for a recipient, that recipient is
marked failed with the fixed error message "Failed to create contact", the
local failed counter increments, no message row is created, the campaign row
counters are not touched this iteration, and the loop continues with the
remaining recipients. -/
theorem C9_contact_failure_continues (env : Env) (rc : RunCtx) (tmpl : Option Template)
    (idx : Nat) (r : Recipient) (rest : List (Nat × Recipient))
    (k sent failed : Nat) (st : Store)
    (hctx : env.ctxCancelled k = false)
    (hob : ((if env.readFails k then "" else (applyExt env k st).campaignStatus) == "paused"
        || (if env.readFails k then "" else (applyExt env k st).campaignStatus) == "cancelled")
        = false)
    (hgc : getOrCreateContact (applyExt env k st).contacts (applyExt env k st).nextContactID
        rc.organizationID r.phoneNumber r.recipientName (env.contactCreateFails k) = none) :
    ∃ st2 : Store,
      runLoop env rc tmpl ((idx, r) :: rest) k sent failed st
        = runLoop env rc tmpl rest (k + 1) sent (failed + 1) st2
      ∧ st2.recipients = st.recipients.set idx
          { r with status := "failed", errorMessage := "Failed to create contact" }
      ∧ st2.messages = st.messages
      ∧ st2.contacts = st.contacts
      ∧ st2.campaignSent = st.campaignSent
      ∧ st2.campaignFailed = st.campaignFailed := by
  have hf := applyExt_fields env k st
  refine ⟨{ applyExt env k st with
      recipients := (applyExt env k st).recipients.set idx
        { r with status := "failed", errorMessage := "Failed to create contact" } },
    ?_, ?_, ?_, ?_, ?_, ?_⟩
  · simp only [runLoop, hctx, Bool.false_eq_true, if_false, hob, hgc]
  · simp [hf.1]
  · simp [hf.2.1]
  · simp [hf.2.2.1]
  · simp [hf.2.2.2.2.1]
  · simp [hf.2.2.2.2.2.1]

/-- Witness for C9: contact creation fails on an empty contact table. -/
theorem C9_contact_failure_continues_witness :
    ∃ st2 : Store,
      runLoop { envBase with contactCreateFails := fun _ => true } rcBase (some tplBase)
          [(0, recBase)] 0 0 0 stBase
        = runLoop { envBase with contactCreateFails := fun _ => true } rcBase (some tplBase)
            [] 1 0 1 st2
      ∧ st2.recipients = stBase.recipients.set 0
          { recBase with status := "failed", errorMessage := "Failed to create contact" }
      ∧ st2.messages = stBase.messages
      ∧ st2.contacts = stBase.contacts
      ∧ st2.campaignSent = stBase.campaignSent
      ∧ st2.campaignFailed = stBase.campaignFailed :=
  C9_contact_failure_continues { envBase with contactCreateFails := fun _ => true }
    rcBase (some tplBase) 0 recBase [] 0 0 0 stBase (by decide) (by decide) (by decide)

/-- C8: for a recipient whose contact resolves (and whose iteration passes the
cancellation and status checks, with message persistence succeeding), a
message row is appended whether the send succeeds or fails, tagged in its
metadata with the campaign id and the recipient's display name and carrying
the rendered template body; on send failure the message is failed with the
error text, the recipient is marked failed with that error, and the failed
counter increments; on send success the message is sent, the recipient is
marked sent with its sent-at stamp and the provider message id, and the sent
counter increments. -/
theorem C8_message_record_per_send (env : Env) (rc : RunCtx) (t : Template)
    (idx : Nat) (r : Recipient) (rest : List (Nat × Recipient))
    (k sent failed : Nat) (st : Store) (c : Contact) (cts : List Contact) (nid : Nat)
    (hctx : env.ctxCancelled k = false)
    (hob : ((if env.readFails k then "" else (applyExt env k st).campaignStatus) == "paused"
        || (if env.readFails k then "" else (applyExt env k st).campaignStatus) == "cancelled")
        = false)
    (hgc : getOrCreateContact (applyExt env k st).contacts (applyExt env k st).nextContactID
        rc.organizationID r.phoneNumber r.recipientName (env.contactCreateFails k)
        = some (c, cts, nid))
    (hmsg : env.msgCreateFails k = false) :
    ∃ (sent2 failed2 : Nat) (st4 : Store) (msg : Message),
      runLoop env rc (some t) ((idx, r) :: rest) k sent failed st
        = runLoop env rc (some t) rest (k + 1) sent2 failed2 st4
      ∧ st4.messages = st.messages ++ [msg]
      ∧ msg.metaCampaignID = rc.campaignID
      ∧ msg.metaRecipientName = r.recipientName
      ∧ msg.content = renderContent t.bodyContent r.templateParams
      ∧ msg.contactID = c.id
      ∧ st4.campaignSent = sent2
      ∧ st4.campaignFailed = failed2
      ∧ (∀ e, env.sendResult k = Except.error e →
          msg.status = "failed" ∧ msg.errorMessage = e
          ∧ sent2 = sent ∧ failed2 = failed + 1
          ∧ st4.recipients = st.recipients.set idx
              { r with status := "failed", waMessageID := "", errorMessage := e })
      ∧ (∀ mid, env.sendResult k = Except.ok mid →
          msg.status = "sent" ∧ msg.waMessageID = mid
          ∧ sent2 = sent + 1 ∧ failed2 = failed
          ∧ st4.recipients = st.recipients.set idx
              { r with status := "sent", waMessageID := mid,
                       sentAt := some (env.timeAt k) }) := by
  have hf := applyExt_fields env k st
  cases hsr : env.sendResult k with
  | error e =>
      refine ⟨sent, failed + 1,
        { applyExt env k st with
          contacts := cts, nextContactID := nid,
          messages := (applyExt env k st).messages ++
            [{ organizationID := rc.organizationID, whatsAppAccount := rc.accountName,
               contactID := c.id, waMessageID := "", direction := "outgoing",
               messageType := "template", templateName := t.name,
               content := renderContent t.bodyContent r.templateParams,
               status := "failed", errorMessage := e,
               metaCampaignID := rc.campaignID, metaRecipientName := r.recipientName,
               templateParams := r.templateParams }],
          recipients := (applyExt env k st).recipients.set idx
            { r with status := "failed", waMessageID := "", errorMessage := e },
          campaignSent := sent, campaignFailed := failed + 1 },
        { organizationID := rc.organizationID, whatsAppAccount := rc.accountName,
          contactID := c.id, waMessageID := "", direction := "outgoing",
          messageType := "template", templateName := t.name,
          content := renderContent t.bodyContent r.templateParams,
          status := "failed", errorMessage := e,
          metaCampaignID := rc.campaignID, metaRecipientName := r.recipientName,
          templateParams := r.templateParams },
        ?_, ?_, rfl, rfl, rfl, rfl, rfl, rfl, ?_, ?_⟩
      · simp [runLoop, hctx, hob, hgc, hsr, hmsg]
      · simp [hf.2.1]
      · intro e' he'
        cases he'
        exact ⟨rfl, rfl, rfl, rfl, by simp [hf.1]⟩
      · intro mid hmid
        simp at hmid
  | ok mid =>
      refine ⟨sent + 1, failed,
        { applyExt env k st with
          contacts := cts, nextContactID := nid,
          messages := (applyExt env k st).messages ++
            [{ organizationID := rc.organizationID, whatsAppAccount := rc.accountName,
               contactID := c.id, waMessageID := mid, direction := "outgoing",
               messageType := "template", templateName := t.name,
               content := renderContent t.bodyContent r.templateParams,
               status := "sent", errorMessage := "",
               metaCampaignID := rc.campaignID, metaRecipientName := r.recipientName,
               templateParams := r.templateParams }],
          recipients := (applyExt env k st).recipients.set idx
            { r with status := "sent", waMessageID := mid,
                     sentAt := some (env.timeAt k) },
          campaignSent := sent + 1, campaignFailed := failed },
        { organizationID := rc.organizationID, whatsAppAccount := rc.accountName,
          contactID := c.id, waMessageID := mid, direction := "outgoing",
          messageType := "template", templateName := t.name,
          content := renderContent t.bodyContent r.templateParams,
          status := "sent", errorMessage := "",
          metaCampaignID := rc.campaignID, metaRecipientName := r.recipientName,
          templateParams := r.templateParams },
        ?_, ?_, rfl, rfl, rfl, rfl, rfl, rfl, ?_, ?_⟩
      · simp [runLoop, hctx, hob, hgc, hsr, hmsg]
      · simp [hf.2.1]
      · intro e' he'
        simp at he'
      · intro mid' hmid
        cases hmid
        exact ⟨rfl, rfl, rfl, rfl, by simp [hf.1]⟩

/-- Witness for C8: the baseline run's single recipient, whose contact is
created as `cW5` and whose send succeeds. -/
theorem C8_message_record_per_send_witness :
    ∃ (sent2 failed2 : Nat) (st4 : Store) (msg : Message),
      runLoop envBase rcBase (some tplBase) [(0, recBase)] 0 0 0 stBase
        = runLoop envBase rcBase (some tplBase) [] 1 sent2 failed2 st4
      ∧ st4.messages = stBase.messages ++ [msg]
      ∧ msg.metaCampaignID = rcBase.campaignID
      ∧ msg.metaRecipientName = recBase.recipientName
      ∧ msg.content = renderContent tplBase.bodyContent recBase.templateParams
      ∧ msg.contactID = cW5.id
      ∧ st4.campaignSent = sent2
      ∧ st4.campaignFailed = failed2
      ∧ (∀ e, envBase.sendResult 0 = Except.error e →
          msg.status = "failed" ∧ msg.errorMessage = e
          ∧ sent2 = 0 ∧ failed2 = 0 + 1
          ∧ st4.recipients = stBase.recipients.set 0
              { recBase with status := "failed", waMessageID := "", errorMessage := e })
      ∧ (∀ mid, envBase.sendResult 0 = Except.ok mid →
          msg.status = "sent" ∧ msg.waMessageID = mid
          ∧ sent2 = 0 + 1 ∧ failed2 = 0
          ∧ st4.recipients = stBase.recipients.set 0
              { recBase with status := "sent", waMessageID := mid,
                             sentAt := some (envBase.timeAt 0) }) :=
  C8_message_record_per_send envBase rcBase tplBase 0 recBase [] 0 0 0 stBase
    cW5 [cW5] 1 (by decide) (by decide) (by decide) (by decide)

/-- Step equation of the loop when contact resolution fails. -/
theorem runLoop_step_contactFail (env : Env) (rc : RunCtx) (tmpl : Option Template)
    (idx : Nat) (r : Recipient) (rest : List (Nat × Recipient))
    (k sent failed : Nat) (st : Store)
    (hctx : env.ctxCancelled k = false)
    (hob : ((if env.readFails k then "" else (applyExt env k st).campaignStatus) == "paused"
        || (if env.readFails k then "" else (applyExt env k st).campaignStatus) == "cancelled")
        = false)
    (hgc : getOrCreateContact (applyExt env k st).contacts (applyExt env k st).nextContactID
        rc.organizationID r.phoneNumber r.recipientName (env.contactCreateFails k) = none) :
    runLoop env rc tmpl ((idx, r) :: rest) k sent failed st
      = runLoop env rc tmpl rest (k + 1) sent (failed + 1)
          { applyExt env k st with
            recipients := (applyExt env k st).recipients.set idx
              { r with status := "failed",
                       errorMessage := "Failed to create contact" } } := by
  simp only [runLoop, hctx, Bool.false_eq_true, if_false, hob, hgc]

/-- Step equation of the loop when the contact resolves and the send fails. -/
theorem runLoop_step_sendError (env : Env) (rc : RunCtx) (t : Template)
    (idx : Nat) (r : Recipient) (rest : List (Nat × Recipient))
    (k sent failed : Nat) (st : Store) (c : Contact) (cts : List Contact) (nid : Nat)
    (e : String)
    (hctx : env.ctxCancelled k = false)
    (hob : ((if env.readFails k then "" else (applyExt env k st).campaignStatus) == "paused"
        || (if env.readFails k then "" else (applyExt env k st).campaignStatus) == "cancelled")
        = false)
    (hgc : getOrCreateContact (applyExt env k st).contacts (applyExt env k st).nextContactID
        rc.organizationID r.phoneNumber r.recipientName (env.contactCreateFails k)
        = some (c, cts, nid))
    (hsr : env.sendResult k = Except.error e) :
    ∃ st4 : Store,
      runLoop env rc (some t) ((idx, r) :: rest) k sent failed st
        = runLoop env rc (some t) rest (k + 1) sent (failed + 1) st4 := by
  cases hmc : env.msgCreateFails k
  · refine ⟨{ applyExt env k st with
        contacts := cts, nextContactID := nid,
        messages := (applyExt env k st).messages ++
          [{ organizationID := rc.organizationID, whatsAppAccount := rc.accountName,
             contactID := c.id, waMessageID := "", direction := "outgoing",
             messageType := "template", templateName := t.name,
             content := renderContent t.bodyContent r.templateParams,
             status := "failed", errorMessage := e,
             metaCampaignID := rc.campaignID, metaRecipientName := r.recipientName,
             templateParams := r.templateParams }],
        recipients := (applyExt env k st).recipients.set idx
          { r with status := "failed", waMessageID := "", errorMessage := e },
        campaignSent := sent, campaignFailed := failed + 1 }, ?_⟩
    simp [runLoop, hctx, hob, hgc, hsr, hmc]
  · refine ⟨{ applyExt env k st with
        contacts := cts, nextContactID := nid,
        recipients := (applyExt env k st).recipients.set idx
          { r with status := "failed", waMessageID := "", errorMessage := e },
        campaignSent := sent, campaignFailed := failed + 1 }, ?_⟩
    simp [runLoop, hctx, hob, hgc, hsr, hmc]

/-- Step equation of the loop when the contact resolves and the send
succeeds. -/
theorem runLoop_step_sendOk (env : Env) (rc : RunCtx) (t : Template)
    (idx : Nat) (r : Recipient) (rest : List (Nat × Recipient))
    (k sent failed : Nat) (st : Store) (c : Contact) (cts : List Contact) (nid : Nat)
    (mid : String)
    (hctx : env.ctxCancelled k = false)
    (hob : ((if env.readFails k then "" else (applyExt env k st).campaignStatus) == "paused"
        || (if env.readFails k then "" else (applyExt env k st).campaignStatus) == "cancelled")
        = false)
    (hgc : getOrCreateContact (applyExt env k st).contacts (applyExt env k st).nextContactID
        rc.organizationID r.phoneNumber r.recipientName (env.contactCreateFails k)
        = some (c, cts, nid))
    (hsr : env.sendResult k = Except.ok mid) :
    ∃ st4 : Store,
      runLoop env rc (some t) ((idx, r) :: rest) k sent failed st
        = runLoop env rc (some t) rest (k + 1) (sent + 1) failed st4 := by
  cases hmc : env.msgCreateFails k
  · refine ⟨{ applyExt env k st with
        contacts := cts, nextContactID := nid,
        messages := (applyExt env k st).messages ++
          [{ organizationID := rc.organizationID, whatsAppAccount := rc.accountName,
             contactID := c.id, waMessageID := mid, direction := "outgoing",
             messageType := "template", templateName := t.name,
             content := renderContent t.bodyContent r.templateParams,
             status := "sent", errorMessage := "",
             metaCampaignID := rc.campaignID, metaRecipientName := r.recipientName,
             templateParams := r.templateParams }],
        recipients := (applyExt env k st).recipients.set idx
          { r with status := "sent", waMessageID := mid,
                   sentAt := some (env.timeAt k) },
        campaignSent := sent + 1, campaignFailed := failed }, ?_⟩
    simp [runLoop, hctx, hob, hgc, hsr, hmc]
  · refine ⟨{ applyExt env k st with
        contacts := cts, nextContactID := nid,
        recipients := (applyExt env k st).recipients.set idx
          { r with status := "sent", waMessageID := mid,
                   sentAt := some (env.timeAt k) },
        campaignSent := sent + 1, campaignFailed := failed }, ?_⟩
    simp [runLoop, hctx, hob, hgc, hsr, hmc]

/-- If the loop runs to normal completion (result ok and final status
completed), every remaining recipient contributed exactly one to the final
counters: they equal the incoming counters plus the number of recipients
processed. -/
theorem runLoop_completed_counts (env : Env) (rc : RunCtx) (tmpl : Option Template) :
    ∀ (l : List (Nat × Recipient)) (k sent failed : Nat) (st : Store),
      (runLoop env rc tmpl l k sent failed st).1 = RunResult.ok →
      (runLoop env rc tmpl l k sent failed st).2.campaignStatus = "completed" →
      (runLoop env rc tmpl l k sent failed st).2.campaignSent
        + (runLoop env rc tmpl l k sent failed st).2.campaignFailed
        = sent + failed + l.length := by
  intro l
  induction l with
  | nil =>
      intro k sent failed st _ _
      simp [runLoop]
  | cons hd rest ih =>
      obtain ⟨idx, r⟩ := hd
      intro k sent failed st h1 h2
      cases hctx : env.ctxCancelled k with
      | true => simp [runLoop, hctx] at h1
      | false =>
      cases hob : ((if env.readFails k then "" else (applyExt env k st).campaignStatus)
            == "paused"
          || (if env.readFails k then "" else (applyExt env k st).campaignStatus)
            == "cancelled") with
      | true =>
          exfalso
          simp only [runLoop, hctx, Bool.false_eq_true, if_false, hob, if_true] at h2
          cases hrf : env.readFails k with
          | true => rw [hrf] at hob; simp at hob
          | false =>
              rw [hrf] at hob
              simp only [if_false, Bool.false_eq_true] at hob
              rw [h2] at hob
              simp at hob
      | false =>
      cases hgc : getOrCreateContact (applyExt env k st).contacts
          (applyExt env k st).nextContactID rc.organizationID
          r.phoneNumber r.recipientName (env.contactCreateFails k) with
      | none =>
          rw [runLoop_step_contactFail env rc tmpl idx r rest k sent failed st hctx hob hgc]
            at h1 h2 ⊢
          have h3 := ih (k + 1) sent (failed + 1) _ h1 h2
          rw [h3, List.length_cons]
          omega
      | some trip =>
          obtain ⟨c, cts, nid⟩ := trip
          cases tmpl with
          | none => simp [runLoop, hctx, hob, hgc] at h1
          | some t =>
              cases hsr : env.sendResult k with
              | error e =>
                  obtain ⟨st4, heq⟩ := runLoop_step_sendError env rc t idx r rest
                    k sent failed st c cts nid e hctx hob hgc hsr
                  rw [heq] at h1 h2 ⊢
                  have h3 := ih (k + 1) sent (failed + 1) st4 h1 h2
                  rw [h3, List.length_cons]
                  omega
              | ok mid =>
                  obtain ⟨st4, heq⟩ := runLoop_step_sendOk env rc t idx r rest
                    k sent failed st c cts nid mid hctx hob hgc hsr
                  rw [heq] at h1 h2 ⊢
                  have h3 := ih (k + 1) (sent + 1) failed st4 h1 h2
                  rw [h3, List.length_cons]
                  omega

/-- C1 counterexample: a resumed run.  The campaign starts `queued` with
`sent_count = 5` carried over from an earlier partial run and exactly one
recipient pending; the run completes normally, yet the final
`sent_count + failed_count` is 6, not the number of recipients (1) that were
pending at run start. -/
theorem C1_resumed_run_counterexample :
    (processCampaign envBase rcBase { stBase with campaignSent := 5 }).1 = RunResult.ok
    ∧ (processCampaign envBase rcBase { stBase with campaignSent := 5 }).2.campaignStatus
        = "completed"
    ∧ ({ stBase with campaignSent := 5 } : Store).recipients.filter
        (fun r => r.status == "pending") = [recBase]
    ∧ ([recBase] : List Recipient).length = 1
    ∧ (processCampaign envBase rcBase { stBase with campaignSent := 5 }).2.campaignSent
        + (processCampaign envBase rcBase { stBase with campaignSent := 5 }).2.campaignFailed
        = 6
    ∧ (6 : Nat) ≠ 1 := by decide

/-- C1 (amended): for every run that completes normally, the final persisted
`sent_count + failed_count` equals the campaign's `sent_count + failed_count`
at run start plus the number of recipients that were pending at run start
(the original claim holds exactly when the campaign enters the run with zero
counters). -/
theorem C1_final_counters_amended (env : Env) (rc : RunCtx) (st : Store)
    (hstart : st.campaignStatus = "queued" ∨ st.campaignStatus = "processing")
    (hfound : env.campaignFound = true)
    (hacct : env.accountFound = true)
    (hrl : env.recipientsLoadOk = true)
    (hok : (processCampaign env rc st).1 = RunResult.ok)
    (hcomp : (processCampaign env rc st).2.campaignStatus = "completed") :
    (processCampaign env rc st).2.campaignSent
      + (processCampaign env rc st).2.campaignFailed
      = st.campaignSent + st.campaignFailed
        + (st.recipients.filter (fun r => r.status == "pending")).length := by
  have hpc : processCampaign env rc st
      = runLoop env rc st.campaignTemplate
          (pendingOf { st with campaignStatus := "processing" })
          0 st.campaignSent st.campaignFailed
          { st with campaignStatus := "processing" } := by
    rcases hstart with h | h <;> simp [processCampaign, hfound, hacct, hrl, h]
  rw [hpc] at hok hcomp ⊢
  have hlen := runLoop_completed_counts env rc st.campaignTemplate
    (pendingOf { st with campaignStatus := "processing" }) 0
    st.campaignSent st.campaignFailed
    { st with campaignStatus := "processing" } hok hcomp
  have hcount : (pendingOf { st with campaignStatus := "processing" }).length
      = (st.recipients.filter (fun r => r.status == "pending")).length :=
    pendingOf_length { st with campaignStatus := "processing" }
  rw [hlen, hcount]

/-- Witness for C1 (amended): the baseline single-recipient run, starting
from zero counters. -/
theorem C1_final_counters_amended_witness :
    (processCampaign envBase rcBase stBase).2.campaignSent
      + (processCampaign envBase rcBase stBase).2.campaignFailed
      = stBase.campaignSent + stBase.campaignFailed
        + (stBase.recipients.filter (fun r => r.status == "pending")).length :=
  C1_final_counters_amended envBase rcBase stBase (Or.inl (by decide)) (by decide)
    (by decide) (by decide) (by decide) (by decide)

/-- C10: when every per-iteration status re-read fails, the unreadable status
is the Go zero value "" — neither paused nor cancelled — so the loop treats
the campaign as active: with no context cancellation it processes every
remaining recipient, returns success and completes the campaign, regardless
of any concurrent status writes sitting in the store. -/
theorem C10_read_failure_treated_active (env : Env) (rc : RunCtx) (t : Template)
    (hrd : ∀ i, env.readFails i = true)
    (hctx : ∀ i, env.ctxCancelled i = false) :
    ∀ (l : List (Nat × Recipient)) (k sent failed : Nat) (st : Store),
      (runLoop env rc (some t) l k sent failed st).1 = RunResult.ok
      ∧ (runLoop env rc (some t) l k sent failed st).2.campaignStatus = "completed"
      ∧ (runLoop env rc (some t) l k sent failed st).2.campaignSent
          + (runLoop env rc (some t) l k sent failed st).2.campaignFailed
          = sent + failed + l.length := by
  intro l
  induction l with
  | nil =>
      intro k sent failed st
      exact ⟨by simp [runLoop], by simp [runLoop], by simp [runLoop]⟩
  | cons hd rest ih =>
      obtain ⟨idx, r⟩ := hd
      intro k sent failed st
      have hob : ((if env.readFails k then "" else (applyExt env k st).campaignStatus)
            == "paused"
          || (if env.readFails k then "" else (applyExt env k st).campaignStatus)
            == "cancelled") = false := by
        simp [hrd k]
      cases hgc : getOrCreateContact (applyExt env k st).contacts
          (applyExt env k st).nextContactID rc.organizationID
          r.phoneNumber r.recipientName (env.contactCreateFails k) with
      | none =>
          rw [runLoop_step_contactFail env rc (some t) idx r rest k sent failed st
            (hctx k) hob hgc]
          obtain ⟨g1, g2, g3⟩ := ih (k + 1) sent (failed + 1) _
          exact ⟨g1, g2, by rw [g3, List.length_cons]; omega⟩
      | some trip =>
          obtain ⟨c, cts, nid⟩ := trip
          cases hsr : env.sendResult k with
          | error e =>
              obtain ⟨st4, heq⟩ := runLoop_step_sendError env rc t idx r rest
                k sent failed st c cts nid e (hctx k) hob hgc hsr
              rw [heq]
              obtain ⟨g1, g2, g3⟩ := ih (k + 1) sent (failed + 1) st4
              exact ⟨g1, g2, by rw [g3, List.length_cons]; omega⟩
          | ok mid =>
              obtain ⟨st4, heq⟩ := runLoop_step_sendOk env rc t idx r rest
                k sent failed st c cts nid mid (hctx k) hob hgc hsr
              rw [heq]
              obtain ⟨g1, g2, g3⟩ := ih (k + 1) (sent + 1) failed st4
              exact ⟨g1, g2, by rw [g3, List.length_cons]; omega⟩

/-- Oracle environment for the C10 witness: every status re-read fails while
a concurrent write keeps setting the campaign to cancelled. -/
def envC10 : Env :=
  { envBase with
    readFails := fun _ => true
    extStatusSet := fun _ => some "cancelled" }

/-- Witness for C10: every re-read fails while a concurrent write has set the
campaign to cancelled; the single recipient is still processed and the
campaign completes. -/
theorem C10_read_failure_treated_active_witness :
    (runLoop envC10 rcBase (some tplBase) [(0, recBase)] 0 0 0 stBase).1 = RunResult.ok
    ∧ (runLoop envC10 rcBase (some tplBase)
        [(0, recBase)] 0 0 0 stBase).2.campaignStatus = "completed"
    ∧ (runLoop envC10 rcBase (some tplBase) [(0, recBase)] 0 0 0 stBase).2.campaignSent
        + (runLoop envC10 rcBase (some tplBase) [(0, recBase)] 0 0 0 stBase).2.campaignFailed
        = 0 + 0 + [(0, recBase)].length :=
  C10_read_failure_treated_active envC10
    rcBase tplBase (fun _ => rfl) (fun _ => rfl) [(0, recBase)] 0 0 0 stBase

/-- C3 (code bug): evaluating the worker on a campaign whose template failed
to load (the loaded campaign carries no template) with one pending recipient
whose contact resolves: the run dereferences the nil template inside
`sendTemplateMessage` (a panic, `RunResult.crashed`) and the campaign is left
in status "processing" — it is never transitioned to "failed" as the spec
requires. -/
theorem C3_nil_template_crash :
    ({ stBase with campaignTemplate := none } : Store).campaignTemplate = none
    ∧ (processCampaign envBase rcBase { stBase with campaignTemplate := none }).1
        = RunResult.crashed
    ∧ (processCampaign envBase rcBase { stBase with campaignTemplate := none }).2.campaignStatus
        = "processing"
    ∧ (processCampaign envBase rcBase
        { stBase with campaignTemplate := none }).2.campaignStatus ≠ "failed" := by
  decide
